import Mathlib

/-!
# VisionBones — verification of the specification against the code

This file gives a shallow embedding of the VisionBones backend:

* the Postgres schema of `supabase/migrations/20240101000000_initial_schema.sql`
  and `supabase/migrations/20250715000001_add_domino_game_tables.sql`
  (tables `users`, `subscriptions`, `webhook_events`, `stats`, `platforms`,
  the generated columns `win_rate` / `games_played`, the constraints
  `check_premium_expiry` and `UNIQUE(user_id, platform_id)`, and the two
  leaderboard views);
* the Supabase edge functions (`user-management`, `subscription-management`,
  the webhook handler, the premium-management and checkout functions) as
  state-passing functions on an explicit database state;
* the client-side helpers that the claims mention (`useUpsertStats`,
  `hasActivePremium`).

Conventions of the embedding:

* Timestamps are `Int` (milliseconds); `none : Option Int` is SQL NULL.
* A `DECIMAL(5,4)` value is an exact multiple of 1/10000, so the stored
  `win_rate` is represented by its integer number of ten-thousandths
  (`Int`); `round4` maps a rational onto the decimal it would be stored as.
* Supabase `.single()` row lookups become `List.find?` (the touched columns
  carry UNIQUE constraints, so at most one row matches).
* A Postgres CHECK violation makes the statement fail; callers that inspect
  the returned `error` throw (modelled with `Except`), callers that ignore
  it continue with the table unchanged.
-/

namespace VisionBones

/-- Postgres `ROUND(q, 4)` for a nonnegative `q`, as an exact rational:
round half away from zero to a multiple of 1/10000 (for nonnegative input
this is `floor(q * 10000 + 1/2) / 10000`). -/
def round4 (q : ℚ) : ℚ := ((⌊q * 10000 + 1 / 2⌋ : ℤ) : ℚ) / 10000

/-- The generated column of the `stats` table, in ten-thousandths:
`win_rate DECIMAL(5,4) GENERATED ALWAYS AS (CASE WHEN (wins + losses) = 0
THEN 0 ELSE ROUND(wins::decimal / (wins + losses), 4) END) STORED`.
`(2*a + b) / (2*b)` in natural division is `ROUND(a/b, 0)` half-up for
nonnegative `a`, applied here to `a = 10000 * wins`, `b = wins + losses`.
The columns are `ℕ` because of `CHECK (wins >= 0)` / `CHECK (losses >= 0)`. -/
def winRateGen (wins losses : ℕ) : ℤ :=
  if wins + losses = 0 then 0
  else ((2 * (10000 * wins) + (wins + losses)) / (2 * (wins + losses)) : ℕ)

/-- `games_played INTEGER GENERATED ALWAYS AS (wins + losses) STORED`. -/
def gamesPlayedGen (wins losses : ℕ) : ℕ := wins + losses

/-- A row of the `stats` table (migration `20250715000001`): base columns
`user_id`, `platform_id`, `wins`, `losses`, `verification_status`, plus the
two STORED generated columns. `win_rate` is the stored decimal in
ten-thousandths. -/
structure StatsRow where
  user_id : ℕ
  platform_id : ℕ
  wins : ℕ
  losses : ℕ
  win_rate : ℤ
  games_played : ℕ
  verification_status : String
  deriving DecidableEq, Repr

/-- The row a stats write produces: Postgres computes the two generated
columns from the base columns; a client cannot supply them. -/
def mkStatsRow (u p w l : ℕ) (vs : String) : StatsRow :=
  { user_id := u, platform_id := p, wins := w, losses := l,
    win_rate := winRateGen w l, games_played := gamesPlayedGen w l,
    verification_status := vs }

/-- The `UNIQUE(user_id, platform_id)` key of two stats rows coincides. -/
def statsKeyEq (a b : StatsRow) : Bool :=
  a.user_id == b.user_id && a.platform_id == b.platform_id

/-- `INSERT INTO stats (...)`: fails on a duplicate `(user_id, platform_id)`
key (the UNIQUE constraint), otherwise appends a row with freshly computed
generated columns. -/
def dbInsertStats (t : List StatsRow) (u p w l : ℕ) (vs : String) :
    Except String (List StatsRow) :=
  let r := mkStatsRow u p w l vs
  if t.any (fun x => statsKeyEq x r) then
    .error "duplicate key value violates unique constraint"
  else
    .ok (t ++ [r])

/-- `INSERT ... ON CONFLICT (user_id, platform_id) DO UPDATE` (a Supabase
upsert of the base columns): replaces the conflicting row, or appends. -/
def dbUpsertStats (t : List StatsRow) (u p w l : ℕ) (vs : String) :
    List StatsRow :=
  let r := mkStatsRow u p w l vs
  if t.any (fun x => statsKeyEq x r) then
    t.map (fun x => if statsKeyEq x r then r else x)
  else
    t ++ [r]

/-- The JS payload `useUpsertStats` sends: `wins && losses ?
wins / (wins + losses) : 0` — note the `&&`, which yields `0` whenever
either counter is `0` (from `webapp/src/hooks/useQueries.ts`). -/
def useUpsertStatsWinRate (wins losses : ℕ) : ℚ :=
  if wins ≠ 0 ∧ losses ≠ 0 then (wins : ℚ) / ((wins : ℚ) + (losses : ℚ)) else 0

/-- A client stats payload: base columns plus the `win_rate` /
`games_played` properties that `useUpsertStats` adds to its upsert body. -/
structure StatsPayload where
  user_id : ℕ
  platform_id : ℕ
  wins : ℕ
  losses : ℕ
  verification_status : String
  win_rate : Option ℚ
  games_played : Option ℕ

/-- The payload `useUpsertStats` builds for given counters. -/
def useUpsertStatsPayload (u p w l : ℕ) (vs : String) : StatsPayload :=
  { user_id := u, platform_id := p, wins := w, losses := l,
    verification_status := vs,
    win_rate := some (useUpsertStatsWinRate w l),
    games_played := some (w + l) }

/-- Upserting a client payload: Postgres rejects any INSERT/UPDATE that
names a `GENERATED ALWAYS` column, so a payload carrying `win_rate` or
`games_played` fails; otherwise the base columns are upserted and the
generated columns recomputed. -/
def statsUpsertFromClient (t : List StatsRow) (pl : StatsPayload) :
    Except String (List StatsRow) :=
  if pl.win_rate.isSome || pl.games_played.isSome then
    .error "cannot insert a non-DEFAULT value into a generated column"
  else
    .ok (dbUpsertStats t pl.user_id pl.platform_id pl.wins pl.losses
          pl.verification_status)

/-- The consistency of the stored generated columns with the base columns. -/
def statsGenConsistent (r : StatsRow) : Prop :=
  r.win_rate = winRateGen r.wins r.losses ∧
  r.games_played = gamesPlayedGen r.wins r.losses

instance (r : StatsRow) : Decidable (statsGenConsistent r) := by
  unfold statsGenConsistent; infer_instance

/-- At most one stats row per `(user_id, platform_id)` pair. -/
def statsKeyUnique (t : List StatsRow) : Prop :=
  t.Pairwise (fun a b => statsKeyEq a b = false)

instance (t : List StatsRow) : Decidable (statsKeyUnique t) := by
  unfold statsKeyUnique; exact List.instDecidablePairwise t

/-- A row of the `users` table (initial schema, Convex-converted variant
with the Stripe columns). -/
structure UserRow where
  id : ℕ
  telegram_id : String
  username : String
  selected_platform : String
  platform_username : String
  is_premium : Bool
  premium_expiry : Option Int
  stripe_customer_id : Option String
  stripe_subscription_id : Option String
  social_links : Option (List (String × String))
  verified_badge : Bool
  created_at : Int
  last_active : Int
  deriving DecidableEq, Repr

/-- The constraint `check_premium_expiry`: `CHECK (NOT is_premium OR
premium_expiry IS NOT NULL OR stripe_subscription_id IS NOT NULL)`. -/
def userCheckOk (u : UserRow) : Bool :=
  !u.is_premium || u.premium_expiry.isSome || u.stripe_subscription_id.isSome

/-- A row of the `subscriptions` table. -/
structure SubscriptionRow where
  user_id : ℕ
  stripe_subscription_id : String
  stripe_customer_id : String
  status : String
  current_period_start : Int
  current_period_end : Int
  cancel_at_period_end : Bool
  canceled_at : Option Int
  updated_at : Int
  deriving DecidableEq, Repr

/-- A row of the `webhook_events` table (`stripe_event_id` UNIQUE). -/
structure WebhookEventRow where
  stripe_event_id : String
  event_type : String
  processed : Bool
  processed_at : Option Int
  error : Option String
  deriving DecidableEq, Repr

/-- A row of the `platforms` table (migration `20250715000001`). -/
structure PlatformRow where
  id : ℕ
  name : String
  display_name : String
  is_active : Bool
  deriving DecidableEq, Repr

/-- The database state the edge functions act on. -/
structure DbState where
  users : List UserRow
  subscriptions : List SubscriptionRow
  webhook_events : List WebhookEventRow
  stats : List StatsRow
  platforms : List PlatformRow
  deriving DecidableEq, Repr

/-- The body of an HTTP response: a `JSON.stringify({ error: msg })`
object, some other JSON payload, or a plain-text body (the webhook
function and the routing defaults answer with bare strings). -/
inductive RespBody
  | jsonError (msg : String)
  | jsonData (payload : String)
  | text (msg : String)
  deriving DecidableEq, Repr

/-- An HTTP response of an edge function. -/
structure HttpResponse where
  status : ℕ
  body : RespBody
  deriving DecidableEq, Repr

/-- Whether a body is a JSON error object. -/
def isJsonErrorBody : RespBody → Bool
  | .jsonError _ => true
  | _ => false

/-- The `try/catch` wrapped around every edge function's `serve` callback:
a handler either returns a response, or throws, in which case the catch
turns the message into `500` + `JSON.stringify({ error: message })`. The
state reached when the exception was thrown is kept as-is (no rollback, no
retry). -/
def serveBoundary (outcome : DbState × Except String HttpResponse) :
    DbState × HttpResponse :=
  match outcome with
  | (s, .ok r) => (s, r)
  | (s, .error msg) => (s, { status := 500, body := .jsonError msg })

/-- The `default:` arm of every function's route switch. -/
def routeNotFound : HttpResponse := { status := 404, body := .text "Not Found" }

/-- `UPDATE users SET ... WHERE sel`: Postgres re-checks
`check_premium_expiry` on every new row version; on a violation the whole
statement fails and the table is unchanged. -/
def dbUpdateUsers (users : List UserRow) (sel : UserRow → Bool)
    (patch : UserRow → UserRow) : Except String (List UserRow) :=
  if (users.filter sel).all (fun u => userCheckOk (patch u)) then
    .ok (users.map (fun u => if sel u then patch u else u))
  else
    .error "new row for relation users violates check constraint"

/-- An update whose result the caller ignores (the subscription-management
handlers never read the `error` field of their `users` updates): a failed
statement leaves the table unchanged and execution continues. -/
def dbUpdateUsersSilent (users : List UserRow) (sel : UserRow → Bool)
    (patch : UserRow → UserRow) : List UserRow :=
  match dbUpdateUsers users sel patch with
  | .ok l => l
  | .error _ => users

/-- The fields of a Stripe subscription object the handlers read. -/
structure StripeSubscription where
  id : String
  customer : String
  status : String
  current_period_start : Int
  current_period_end : Int
  cancel_at_period_end : Bool
  canceled_at : Option Int
  deriving DecidableEq, Repr

/-- The fields of a Stripe invoice object the handlers read. -/
structure StripeInvoice where
  customer : String
  subscription : Option String
  deriving DecidableEq, Repr

/-- The `event.data.object` payload of a Stripe event. -/
inductive StripeEventData
  | sub (s : StripeSubscription)
  | inv (i : StripeInvoice)
  | other
  deriving DecidableEq, Repr

/-- A verified Stripe event. -/
structure StripeEvent where
  id : String
  type : String
  data : StripeEventData
  deriving DecidableEq, Repr

/-- `handleSubscriptionUpdate` (subscription-management): find the user by
`stripe_customer_id`, upsert the subscription row keyed by
`stripe_subscription_id`, then set the user's premium flag from the
subscription status (`active`/`trialing`), the expiry from
`current_period_end`, and `stripe_subscription_id`. The `users` update
result is not inspected by the source. -/
def handleSubscriptionUpdate (s : DbState) (sub : StripeSubscription)
    (now : Int) : DbState × HttpResponse :=
  match s.users.find? (fun u => u.stripe_customer_id == some sub.customer) with
  | none => (s, { status := 404, body := .jsonError "User not found" })
  | some user =>
    let subData : SubscriptionRow :=
      { user_id := user.id, stripe_subscription_id := sub.id,
        stripe_customer_id := sub.customer, status := sub.status,
        current_period_start := sub.current_period_start,
        current_period_end := sub.current_period_end,
        cancel_at_period_end := sub.cancel_at_period_end,
        canceled_at := sub.canceled_at, updated_at := now }
    let subs :=
      if s.subscriptions.any (fun r => r.stripe_subscription_id == sub.id) then
        s.subscriptions.map
          (fun r => if r.stripe_subscription_id == sub.id then subData else r)
      else s.subscriptions ++ [subData]
    let isPrem := sub.status == "active" || sub.status == "trialing"
    let expiry := if isPrem then some sub.current_period_end else none
    let users := dbUpdateUsersSilent s.users (fun u => u.id == user.id)
      (fun u => { u with
                  is_premium := isPrem
                  premium_expiry := expiry
                  stripe_subscription_id := some sub.id })
    ({ s with users := users, subscriptions := subs },
     { status := 200, body := .jsonData "success" })

/-- `handleSubscriptionDeleted`: mark the subscription row canceled (if
present) and clear the user's premium flag and expiry. -/
def handleSubscriptionDeleted (s : DbState) (sub : StripeSubscription)
    (now : Int) : DbState × HttpResponse :=
  match s.users.find? (fun u => u.stripe_customer_id == some sub.customer) with
  | none => (s, { status := 404, body := .jsonError "User not found" })
  | some user =>
    let subs :=
      if s.subscriptions.any (fun r => r.stripe_subscription_id == sub.id) then
        s.subscriptions.map (fun r =>
          if r.stripe_subscription_id == sub.id then
            { r with
              status := "canceled"
              canceled_at := some now
              updated_at := now }
          else r)
      else s.subscriptions
    let users := dbUpdateUsersSilent s.users (fun u => u.id == user.id)
      (fun u => { u with is_premium := false, premium_expiry := none })
    ({ s with users := users, subscriptions := subs },
     { status := 200, body := .jsonData "success" })

/-- `handlePaymentSucceeded`: if the invoice has a subscription, find the
user by `stripe_customer_id` and set `is_premium := true` (touching
nothing else besides `last_active`); the update result is not inspected. -/
def handlePaymentSucceeded (s : DbState) (inv : StripeInvoice)
    (now : Int) : DbState × HttpResponse :=
  match inv.subscription with
  | none =>
    (s, { status := 200, body := .jsonData "No subscription associated with invoice" })
  | some _ =>
    match s.users.find? (fun u => u.stripe_customer_id == some inv.customer) with
    | none => (s, { status := 404, body := .jsonError "User not found" })
    | some user =>
      let users := dbUpdateUsersSilent s.users (fun u => u.id == user.id)
        (fun u => { u with is_premium := true, last_active := now })
      ({ s with users := users }, { status := 200, body := .jsonData "success" })

/-- `handlePaymentFailed`: logs only; premium status is not revoked. -/
def handlePaymentFailed (s : DbState) (inv : StripeInvoice) : DbState × HttpResponse :=
  match inv.subscription with
  | none =>
    (s, { status := 200, body := .jsonData "No subscription associated with invoice" })
  | some _ =>
    match s.users.find? (fun u => u.stripe_customer_id == some inv.customer) with
    | none => (s, { status := 404, body := .jsonError "User not found" })
    | some _ => (s, { status := 200, body := .jsonData "success" })

/-- `updatePremiumStatus` (user-management): sets `is_premium` and
`premium_expiry` from the request; a database error is thrown and becomes
a `500` JSON error at the serve boundary. -/
def updatePremiumStatus (s : DbState) (userId : ℕ) (isPremium : Bool)
    (premiumExpiry : Option Int) : DbState × HttpResponse :=
  match dbUpdateUsers s.users (fun u => u.id == userId)
      (fun u => { u with
                  is_premium := isPremium
                  premium_expiry := premiumExpiry }) with
  | .ok users => ({ s with users := users }, { status := 200, body := .jsonData "success" })
  | .error msg => (s, { status := 500, body := .jsonError msg })

/-- The request body of `createOrUpdateUser`. -/
structure CreateOrUpdateInput where
  telegramId : String
  username : String
  selectedPlatform : String
  platformUsername : String
  deriving DecidableEq, Repr

/-- The row the insert branch of `createOrUpdateUser` creates: the payload
fields plus `is_premium: false`, `verified_badge: false`, with all other
columns at their schema defaults (`NULL` / `NOW()`). -/
def newUserRow (nid : ℕ) (inp : CreateOrUpdateInput) (now : Int) : UserRow :=
  { id := nid, telegram_id := inp.telegramId, username := inp.username,
    selected_platform := inp.selectedPlatform,
    platform_username := inp.platformUsername,
    is_premium := false, premium_expiry := none, stripe_customer_id := none,
    stripe_subscription_id := none, social_links := none,
    verified_badge := false, created_at := now, last_active := now }

/-- The update payload of the found-user branch of `createOrUpdateUser`:
exactly `username`, `selected_platform`, `platform_username` and
`last_active` (the `update_last_active` trigger would set the latter
anyway). -/
def profilePatch (inp : CreateOrUpdateInput) (now : Int) (v : UserRow) : UserRow :=
  { v with
    username := inp.username
    selected_platform := inp.selectedPlatform
    platform_username := inp.platformUsername
    last_active := now }

/-- `createOrUpdateUser` (user-management): look up by `telegram_id`; if a
row exists, update exactly the profile fields of `profilePatch`; otherwise
insert a fresh row. -/
def createOrUpdateUser (s : DbState) (inp : CreateOrUpdateInput) (now : Int)
    (nid : ℕ) : DbState × HttpResponse :=
  match s.users.find? (fun u => u.telegram_id == inp.telegramId) with
  | some u =>
    match dbUpdateUsers s.users (fun v => v.id == u.id) (profilePatch inp now) with
    | .ok users =>
      ({ s with users := users }, { status := 200, body := .jsonData "userId" })
    | .error msg => (s, { status := 500, body := .jsonError msg })
  | none =>
    ({ s with users := s.users ++ [newUserRow nid inp now] },
     { status := 200, body := .jsonData "userId" })

/-- `checkPremiumStatus` (shared utilities): `false` when the premium flag
is off, `false` when an expiry is set and `new Date(expiry) < new Date()`,
`true` otherwise. -/
def checkPremiumStatus (u : UserRow) (now : Int) : Bool :=
  if !u.is_premium then false
  else
    match u.premium_expiry with
    | some e => if e < now then false else true
    | none => true

/-- `isPremiumUser` (premium-management): a missing row (PGRST116) answers
`isPremium: false`; otherwise the same flag-and-expiry test as
`checkPremiumStatus`. -/
def isPremiumUser (user : Option UserRow) (now : Int) : Bool :=
  match user with
  | none => false
  | some u =>
    if !u.is_premium then false
    else
      match u.premium_expiry with
      | some e => if e < now then false else true
      | none => true

/-- The inline gate of `updateSocialLinks` (user-management):
`user.is_premium && (!user.premium_expiry ||
new Date(user.premium_expiry) > new Date())`. -/
def updateSocialLinksGate (u : UserRow) (now : Int) : Bool :=
  u.is_premium &&
    (match u.premium_expiry with
     | none => true
     | some e => decide (now < e))

/-- The `isPremium` computed by `getPremiumStatus` (premium-management):
the same strict-comparison expression as `updateSocialLinks`. -/
def getPremiumStatusGate (u : UserRow) (now : Int) : Bool :=
  u.is_premium &&
    (match u.premium_expiry with
     | none => true
     | some e => decide (now < e))

/-- Modelled from the spec: the premium gate as the spec words it,
`is_premium AND (no expiry OR expiry > now)` — for comparison with the
gates translated from the code. -/
def specPremiumGate (isPrem : Bool) (expiry : Option Int) (now : Int) : Bool :=
  isPrem &&
    (match expiry with
     | none => true
     | some e => decide (now < e))

/-- `updateSocialLinks` (user-management): premium-gated write of
`social_links`. -/
def updateSocialLinks (s : DbState) (userId : ℕ)
    (links : List (String × String)) (now : Int) : DbState × HttpResponse :=
  match s.users.find? (fun u => u.id == userId) with
  | none => (s, { status := 500, body := .jsonError "Error finding user" })
  | some user =>
    if !updateSocialLinksGate user now then
      (s, { status := 403,
            body := .jsonError "Premium subscription required for social links" })
    else
      match dbUpdateUsers s.users (fun u => u.id == userId)
          (fun u => { u with social_links := some links }) with
      | .ok users =>
        ({ s with users := users }, { status := 200, body := .jsonData "success" })
      | .error msg => (s, { status := 500, body := .jsonError msg })

/-- The client-side `StripeCustomer` data (`webapp/src/utils/stripe.ts`). -/
structure StripeCustomer where
  id : String
  subscriptionStatus : String
  subscriptionId : Option String
  currentPeriodEnd : Option Int
  deriving DecidableEq, Repr

/-- `hasActivePremium` (client helper): `customer.subscriptionStatus ===
'active'`, with `false` for a missing customer. It reads no clock. -/
def hasActivePremium : Option StripeCustomer → Bool
  | none => false
  | some c => c.subscriptionStatus == "active"

/-- The `fetch` of a helper (`handleSubscriptionEvent` /
`handlePaymentEvent`): the called edge function runs to completion
(whatever it wrote persists), and a non-ok response makes the helper
throw. -/
def exceptOfCall (x : DbState × HttpResponse) (msg : String) :
    Except (DbState × String) DbState :=
  if x.2.status == 200 then .ok x.1 else .error (x.1, msg)

/-- The dispatch switch of the webhook handler: route by `event.type` to
the subscription-management function; a non-ok response from the called
function makes the helper throw (carrying along the state the called
function left behind). A payload of the wrong shape cannot satisfy the
called handler either. Unhandled event types are only logged. -/
def dispatchStripeEvent (s : DbState) (e : StripeEvent) (now : Int) :
    Except (DbState × String) DbState :=
  if e.type == "customer.subscription.created" ||
     e.type == "customer.subscription.updated" then
    match e.data with
    | .sub sub => exceptOfCall (handleSubscriptionUpdate s sub now)
        "Failed to handle subscription update"
    | _ => .error (s, "Failed to handle subscription update")
  else if e.type == "customer.subscription.deleted" then
    match e.data with
    | .sub sub => exceptOfCall (handleSubscriptionDeleted s sub now)
        "Failed to handle subscription delete"
    | _ => .error (s, "Failed to handle subscription delete")
  else if e.type == "invoice.payment_succeeded" then
    match e.data with
    | .inv inv => exceptOfCall (handlePaymentSucceeded s inv now)
        "Failed to handle payment succeeded"
    | _ => .error (s, "Failed to handle payment succeeded")
  else if e.type == "invoice.payment_failed" then
    match e.data with
    | .inv inv => exceptOfCall (handlePaymentFailed s inv)
        "Failed to handle payment failed"
    | _ => .error (s, "Failed to handle payment failed")
  else .ok s

/-- `handleStripeWebhook` (webhook-handlers): reject a request without
signature or secret (400, text), reject an invalid signature (400, text),
answer 200 without any further work when a `webhook_events` row with this
`stripe_event_id` already exists, otherwise log the event, dispatch it,
and mark it processed (or record the error and answer 500, text). -/
def handleStripeWebhook (hasSigAndSecret sigValid : Bool) (e : StripeEvent)
    (now : Int) (s : DbState) : DbState × HttpResponse :=
  if !hasSigAndSecret then
    (s, { status := 400, body := .text "Missing signature or webhook secret" })
  else if !sigValid then
    (s, { status := 400, body := .text "Invalid signature" })
  else if s.webhook_events.any (fun w => w.stripe_event_id == e.id) then
    (s, { status := 200, body := .text "Event already processed" })
  else
    let s1 : DbState :=
      { s with webhook_events := s.webhook_events ++
          [{ stripe_event_id := e.id, event_type := e.type,
             processed := false, processed_at := none, error := none }] }
    match dispatchStripeEvent s1 e now with
    | .ok s2 =>
      ({ s2 with webhook_events := s2.webhook_events.map (fun w =>
          if w.stripe_event_id == e.id then
            { w with processed := true, processed_at := some now }
          else w) },
       { status := 200, body := .text "Webhook processed successfully" })
    | .error (s2, msg) =>
      ({ s2 with webhook_events := s2.webhook_events.map (fun w =>
          if w.stripe_event_id == e.id then
            { w with error := some msg, processed_at := some now }
          else w) },
       { status := 500, body := .text "Error processing webhook" })

/-- `getWebhookEvent` (webhook-handlers): a missing `eventId` query
parameter is answered 400 with the JSON error body
`{ error: "eventId parameter required" }`; otherwise the lookup result
(the row, or `null` on a PGRST116 miss) is returned as JSON with
status 200. -/
def getWebhookEvent (s : DbState) (eventId : Option String) :
    DbState × HttpResponse :=
  match eventId with
  | none =>
    (s, { status := 400, body := .jsonError "eventId parameter required" })
  | some eid =>
    match s.webhook_events.find? (fun w => w.stripe_event_id == eid) with
    | some _ => (s, { status := 200, body := .jsonData "event" })
    | none => (s, { status := 200, body := .jsonData "null" })

/-- The ordering key of both leaderboard views:
`ORDER BY win_rate DESC, wins DESC, games_played DESC`. -/
def lbTuple (r : StatsRow) : ℤ × ℕ × ℕ := (r.win_rate, r.wins, r.games_played)

/-- Descending comparison of ordering keys: `a` may come before `b`. -/
def tupleGe (a b : ℤ × ℕ × ℕ) : Prop :=
  b.1 < a.1 ∨ (a.1 = b.1 ∧ (b.2.1 < a.2.1 ∨ (a.2.1 = b.2.1 ∧ b.2.2 ≤ a.2.2)))

instance (a b : ℤ × ℕ × ℕ) : Decidable (tupleGe a b) := by
  unfold tupleGe; infer_instance

/-- The rows of `leaderboard_overall`: `FROM users u JOIN stats s ON
u.id = s.user_id WHERE s.verification_status = 'verified' AND
s.games_played > 0`. -/
def leaderboardOverallRows (users : List UserRow) (stats : List StatsRow) :
    List StatsRow :=
  stats.filter (fun r =>
    r.verification_status == "verified" && decide (0 < r.games_played) &&
    users.any (fun u => u.id == r.user_id))

/-- The rows of `leaderboard_by_platform`: additionally `JOIN platforms p
ON s.platform_id = p.id ... AND p.is_active = true`. -/
def leaderboardByPlatformRows (users : List UserRow)
    (platforms : List PlatformRow) (stats : List StatsRow) : List StatsRow :=
  stats.filter (fun r =>
    r.verification_status == "verified" && decide (0 < r.games_played) &&
    users.any (fun u => u.id == r.user_id) &&
    platforms.any (fun p => p.id == r.platform_id && p.is_active))

/-- A result order the `leaderboard_overall` view may produce: SQL only
promises some sequence of the selected rows that is sorted by the ORDER BY
key; `ROW_NUMBER()` then numbers the sequence. -/
def ValidLeaderboardOrder (users : List UserRow) (stats : List StatsRow)
    (out : List StatsRow) : Prop :=
  out.Perm (leaderboardOverallRows users stats) ∧
  out.Sorted (fun a b => tupleGe (lbTuple a) (lbTuple b))

instance (users : List UserRow) (stats : List StatsRow) (out : List StatsRow) :
    Decidable (ValidLeaderboardOrder users stats out) := by
  unfold ValidLeaderboardOrder; exact instDecidableAnd

/-- `ROW_NUMBER()` over a produced sequence: position `i` gets rank
`i + 1`. -/
def leaderboardRanks (out : List StatsRow) : List (ℕ × StatsRow) :=
  out.enum.map (fun p => (p.1 + 1, p.2))

/-- The spec's claimed invariant for a premium user: an expiry that has
not yet passed, or an active subscription row for that user. -/
def userStrongPremiumOk (now : Int) (subs : List SubscriptionRow)
    (u : UserRow) : Bool :=
  !u.is_premium ||
  (match u.premium_expiry with
   | some e => decide (now ≤ e)
   | none => false) ||
  subs.any (fun r => r.user_id == u.id && r.status == "active")

/-- The spec's claimed premium invariant over a whole state. -/
def strongPremiumInv (now : Int) (s : DbState) : Bool :=
  s.users.all (userStrongPremiumOk now s.subscriptions)

/-- A webhook-event fixture: an already-logged Stripe event. -/
def demoEventRow : WebhookEventRow :=
  { stripe_event_id := "evt_1", event_type := "invoice.payment_succeeded",
    processed := true, processed_at := some 5, error := none }

/-- A database fixture whose event log already holds `evt_1`. -/
def demoState : DbState :=
  { users := [], subscriptions := [], webhook_events := [demoEventRow],
    stats := [], platforms := [] }

/-- A Stripe event fixture with the already-logged id. -/
def demoEvent : StripeEvent :=
  { id := "evt_1", type := "invoice.payment_succeeded",
    data := .inv { customer := "cus_1", subscription := some "sub_1" } }

/-- A premium user fixture whose expiry is the instant `0`. -/
def demoUserExpiring : UserRow :=
  { id := 1, telegram_id := "t1", username := "alice",
    selected_platform := "domino-flyclops", platform_username := "alice1",
    is_premium := true, premium_expiry := some 0,
    stripe_customer_id := some "cus_1", stripe_subscription_id := some "sub_1",
    social_links := none, verified_badge := false,
    created_at := 0, last_active := 0 }

/-- A premium user fixture whose expiry is the future instant `5`. -/
def demoUserFuture : UserRow :=
  { demoUserExpiring with premium_expiry := some 5 }

/-- A client-side customer fixture: cached status still `active` although
its period ended at instant `0`. -/
def demoCustomer : StripeCustomer :=
  { id := "cus_1", subscriptionStatus := "active",
    subscriptionId := some "sub_1", currentPeriodEnd := some 0 }

/-- A non-premium user fixture with an already-passed expiry, a Stripe
customer id and a canceled subscription. -/
def demoUserLapsed : UserRow :=
  { demoUserExpiring with is_premium := false }

/-- A canceled subscription row for the lapsed user. -/
def demoSubCanceled : SubscriptionRow :=
  { user_id := 1, stripe_subscription_id := "sub_1",
    stripe_customer_id := "cus_1", status := "canceled",
    current_period_start := 0, current_period_end := 0,
    cancel_at_period_end := false, canceled_at := some 0, updated_at := 0 }

/-- The database fixture for the premium-invariant scenario. -/
def demoStateLapsed : DbState :=
  { users := [demoUserLapsed], subscriptions := [demoSubCanceled],
    webhook_events := [], stats := [], platforms := [] }

/-- A Stripe invoice fixture for the lapsed user's customer. -/
def demoInvoice : StripeInvoice :=
  { customer := "cus_1", subscription := some "sub_1" }

/-- A profile-update request fixture for the lapsed user's telegram id. -/
def demoInput : CreateOrUpdateInput :=
  { telegramId := "t1", username := "alice2", selectedPlatform := "other",
    platformUsername := "al2" }

/-- A Stripe subscription payload fixture for the lapsed user's customer. -/
def demoSubStripe : StripeSubscription :=
  { id := "sub_1", customer := "cus_1", status := "active",
    current_period_start := 0, current_period_end := 200,
    cancel_at_period_end := false, canceled_at := none }

/-- A verified stats row fixture for user 1 (2 wins, 2 losses). -/
def demoRowA : StatsRow := mkStatsRow 1 1 2 2 "verified"

/-- A verified stats row fixture for user 2 with the same counters —
its ordering tuple equals that of the first row. -/
def demoRowB : StatsRow := mkStatsRow 2 1 2 2 "verified"

/-- A second user fixture. -/
def demoUserB : UserRow :=
  { demoUserExpiring with id := 2, telegram_id := "t2" }

/-- The users for the leaderboard fixtures. -/
def demoUsersLB : List UserRow := [demoUserExpiring, demoUserB]

/-- The stats table for the leaderboard fixtures. -/
def demoStatsLB : List StatsRow := [demoRowA, demoRowB]

/-- An active platform fixture. -/
def demoPlatformActive : PlatformRow :=
  { id := 1, name := "domino-flyclops", display_name := "Domino by Flyclops",
    is_active := true }

/-- The platforms for the leaderboard fixtures. -/
def demoPlatformsLB : List PlatformRow := [demoPlatformActive]

theorem statsKeyEq_eq_true_iff (a b : StatsRow) :
    statsKeyEq a b = true ↔ a.user_id = b.user_id ∧ a.platform_id = b.platform_id := by
  simp [statsKeyEq]

theorem mkStatsRow_consistent (u p w l : ℕ) (vs : String) :
    statsGenConsistent (mkStatsRow u p w l vs) :=
  ⟨rfl, rfl⟩

theorem winRateGen_eq_round4 (w l : ℕ) (h : 0 < w + l) :
    ((winRateGen w l : ℤ) : ℚ) / 10000 = round4 ((w : ℚ) / ((w : ℚ) + (l : ℚ))) := by
  have hl : w + l ≠ 0 := h.ne'
  have hq : ((w : ℚ) + (l : ℚ)) ≠ 0 := by
    have h0 : (0 : ℚ) < (w : ℚ) + (l : ℚ) := by exact_mod_cast h
    exact h0.ne'
  unfold winRateGen round4
  rw [if_neg hl]
  have key : (w : ℚ) / ((w : ℚ) + (l : ℚ)) * 10000 + 1 / 2
      = ((2 * (10000 * w) + (w + l) : ℕ) : ℚ) / ((2 * (w + l) : ℕ) : ℚ) := by
    push_cast
    field_simp
    ring
  rw [key, Rat.floor_natCast_div_natCast, Int.natCast_div]

/-- C1 (counterexample): at wins = 1, losses = 2 the stored `win_rate`
is 0.3333 (the generated column applies `ROUND(..., 4)`), while the claim
demands the exact quotient 1/3, although games_played = 3 > 0. -/
theorem C1_counterexample :
    0 < (mkStatsRow 1 1 1 2 "pending").games_played ∧
    ((mkStatsRow 1 1 1 2 "pending").win_rate : ℚ) / 10000 ≠
      ((mkStatsRow 1 1 1 2 "pending").wins : ℚ) /
        (((mkStatsRow 1 1 1 2 "pending").wins : ℚ) +
         ((mkStatsRow 1 1 1 2 "pending").losses : ℚ)) := by
  refine ⟨by decide, ?_⟩
  have h1 : (mkStatsRow 1 1 1 2 "pending").win_rate = 3333 := by decide
  have h2 : (mkStatsRow 1 1 1 2 "pending").wins = 1 := rfl
  have h3 : (mkStatsRow 1 1 1 2 "pending").losses = 2 := rfl
  rw [h1, h2, h3]
  norm_num

/-- C1 (amended): for every stats row with wins ≥ 0 and losses ≥ 0, the
stored win_rate equals wins/(wins+losses) ROUNDED TO 4 DECIMAL PLACES when
games_played > 0 and equals 0 when games_played = 0; every stats write
(insert or upsert) stores the generated columns recomputed from wins and
losses, and a payload that tries to supply win_rate itself (as
useUpsertStats does) is rejected by the generated column. -/
theorem C1_win_rate_recomputed (t : List StatsRow) (u p w l : ℕ) (vs : String)
    (ht : ∀ r ∈ t, statsGenConsistent r) :
    (∀ r ∈ dbUpsertStats t u p w l vs, statsGenConsistent r) ∧
    (∀ t', dbInsertStats t u p w l vs = .ok t' → ∀ r ∈ t', statsGenConsistent r) ∧
    (0 < w + l →
      ((winRateGen w l : ℤ) : ℚ) / 10000 = round4 ((w : ℚ) / ((w : ℚ) + (l : ℚ)))) ∧
    (w + l = 0 → winRateGen w l = 0) ∧
    (∀ pl : StatsPayload, pl.win_rate.isSome = true →
      statsUpsertFromClient t pl =
        .error "cannot insert a non-DEFAULT value into a generated column") := by
  refine ⟨?_, ?_, winRateGen_eq_round4 w l, ?_, ?_⟩
  · intro r hr
    simp only [dbUpsertStats] at hr
    split at hr
    · rcases List.mem_map.1 hr with ⟨x, hx, hfx⟩
      split at hfx
      · exact hfx ▸ mkStatsRow_consistent u p w l vs
      · exact hfx ▸ ht x hx
    · rcases List.mem_append.1 hr with hmem | hmem
      · exact ht r hmem
      · rcases List.mem_singleton.1 hmem with rfl
        exact mkStatsRow_consistent u p w l vs
  · intro t' h r hr
    simp only [dbInsertStats] at h
    split at h
    · exact absurd h (by simp)
    · cases h
      rcases List.mem_append.1 hr with hmem | hmem
      · exact ht r hmem
      · rcases List.mem_singleton.1 hmem with rfl
        exact mkStatsRow_consistent u p w l vs
  · intro h0
    simp [winRateGen, h0]
  · intro pl hpl
    simp [statsUpsertFromClient, hpl]

/-- C1 (witness): the amended theorem applied at the empty table with
wins = 7, losses = 3. -/
theorem C1_witness :
    (∀ r ∈ dbUpsertStats [] 1 1 7 3 "pending", statsGenConsistent r) ∧
    (∀ t', dbInsertStats [] 1 1 7 3 "pending" = .ok t' →
      ∀ r ∈ t', statsGenConsistent r) ∧
    (0 < 7 + 3 →
      ((winRateGen 7 3 : ℤ) : ℚ) / 10000 =
        round4 ((7 : ℚ) / ((7 : ℚ) + (3 : ℚ)))) ∧
    (7 + 3 = 0 → winRateGen 7 3 = 0) ∧
    (∀ pl : StatsPayload, pl.win_rate.isSome = true →
      statsUpsertFromClient [] pl =
        .error "cannot insert a non-DEFAULT value into a generated column") :=
  C1_win_rate_recomputed [] 1 1 7 3 "pending" (by simp)

/-- C6: in every state whose stats table has at most one row per
(user_id, platform_id) pair, both stats-writing operations — the plain
insert and the upsert — preserve that uniqueness (the insert fails on a
conflicting key, the upsert replaces the conflicting row in place). -/
theorem C6_stats_key_unique (t : List StatsRow) (u p w l : ℕ) (vs : String)
    (h : statsKeyUnique t) :
    statsKeyUnique (dbUpsertStats t u p w l vs) ∧
    (∀ t', dbInsertStats t u p w l vs = .ok t' → statsKeyUnique t') := by
  constructor
  · simp only [dbUpsertStats]
    split
    · rw [statsKeyUnique, List.pairwise_map]
      have hfeq : ∀ a : StatsRow,
          ((if statsKeyEq a (mkStatsRow u p w l vs) = true then
              mkStatsRow u p w l vs else a).user_id = a.user_id ∧
           (if statsKeyEq a (mkStatsRow u p w l vs) = true then
              mkStatsRow u p w l vs else a).platform_id = a.platform_id) := by
        intro a
        split
        · next hx =>
          rcases (statsKeyEq_eq_true_iff _ _).1 hx with ⟨h1, h2⟩
          exact ⟨h1.symm, h2.symm⟩
        · exact ⟨rfl, rfl⟩
      refine h.imp ?_
      intro a b hab
      rw [statsKeyEq, (hfeq a).1, (hfeq a).2, (hfeq b).1, (hfeq b).2]
      exact hab
    · next hc =>
      rw [statsKeyUnique, List.pairwise_append]
      refine ⟨h, List.pairwise_singleton _ _, ?_⟩
      intro a ha b hb
      rcases List.mem_singleton.1 hb with rfl
      by_contra hcon
      have htrue : statsKeyEq a (mkStatsRow u p w l vs) = true := by
        revert hcon
        cases statsKeyEq a (mkStatsRow u p w l vs) <;> simp
      exact hc (List.any_eq_true.2 ⟨a, ha, htrue⟩)
  · intro t' hins
    simp only [dbInsertStats] at hins
    split at hins
    · exact absurd hins (by simp)
    · next hc =>
      cases hins
      rw [statsKeyUnique, List.pairwise_append]
      refine ⟨h, List.pairwise_singleton _ _, ?_⟩
      intro a ha b hb
      rcases List.mem_singleton.1 hb with rfl
      by_contra hcon
      have htrue : statsKeyEq a (mkStatsRow u p w l vs) = true := by
        revert hcon
        cases statsKeyEq a (mkStatsRow u p w l vs) <;> simp
      exact hc (List.any_eq_true.2 ⟨a, ha, htrue⟩)

theorem handleSubscriptionUpdate_events (s : DbState) (sub : StripeSubscription)
    (now : Int) :
    (handleSubscriptionUpdate s sub now).1.webhook_events = s.webhook_events := by
  unfold handleSubscriptionUpdate
  cases s.users.find? (fun u => u.stripe_customer_id == some sub.customer) <;> rfl

theorem handleSubscriptionDeleted_events (s : DbState) (sub : StripeSubscription)
    (now : Int) :
    (handleSubscriptionDeleted s sub now).1.webhook_events = s.webhook_events := by
  unfold handleSubscriptionDeleted
  cases s.users.find? (fun u => u.stripe_customer_id == some sub.customer) <;> rfl

theorem handlePaymentSucceeded_events (s : DbState) (inv : StripeInvoice)
    (now : Int) :
    (handlePaymentSucceeded s inv now).1.webhook_events = s.webhook_events := by
  unfold handlePaymentSucceeded
  cases inv.subscription
  · rfl
  · cases s.users.find? (fun u => u.stripe_customer_id == some inv.customer) <;> rfl

theorem handlePaymentFailed_events (s : DbState) (inv : StripeInvoice) :
    (handlePaymentFailed s inv).1.webhook_events = s.webhook_events := by
  unfold handlePaymentFailed
  cases inv.subscription
  · rfl
  · cases s.users.find? (fun u => u.stripe_customer_id == some inv.customer) <;> rfl

theorem exceptOfCall_ok (x : DbState × HttpResponse) (msg : String)
    (s' : DbState) (h : exceptOfCall x msg = .ok s') : s' = x.1 := by
  unfold exceptOfCall at h
  split at h
  · cases h; rfl
  · exact Except.noConfusion h

theorem exceptOfCall_error (x : DbState × HttpResponse) (msg : String)
    (s' : DbState) (m : String) (h : exceptOfCall x msg = .error (s', m)) :
    s' = x.1 := by
  unfold exceptOfCall at h
  split at h
  · exact Except.noConfusion h
  · cases h; rfl

theorem dispatchStripeEvent_events_ok (s : DbState) (e : StripeEvent) (now : Int) :
    ∀ s', dispatchStripeEvent s e now = .ok s' →
      s'.webhook_events = s.webhook_events := by
  obtain ⟨eid, ety, edata⟩ := e
  unfold dispatchStripeEvent
  split_ifs <;> cases edata <;> intro s' h
  all_goals
    first
    | exact h.elim
    | exact Except.noConfusion h
    | (cases h; rfl)
    | (rw [exceptOfCall_ok _ _ _ h]
       first
       | exact handleSubscriptionUpdate_events s _ now
       | exact handleSubscriptionDeleted_events s _ now
       | exact handlePaymentSucceeded_events s _ now
       | exact handlePaymentFailed_events s _)

theorem dispatchStripeEvent_events_error (s : DbState) (e : StripeEvent) (now : Int) :
    ∀ s' msg, dispatchStripeEvent s e now = .error (s', msg) →
      s'.webhook_events = s.webhook_events := by
  obtain ⟨eid, ety, edata⟩ := e
  unfold dispatchStripeEvent
  split_ifs <;> cases edata <;> intro s' msg h
  all_goals
    first
    | exact h.elim
    | exact Except.noConfusion h
    | (cases h; rfl)
    | (rw [exceptOfCall_error _ _ _ _ h]
       first
       | exact handleSubscriptionUpdate_events s _ now
       | exact handleSubscriptionDeleted_events s _ now
       | exact handlePaymentSucceeded_events s _ now
       | exact handlePaymentFailed_events s _)

theorem handleStripeWebhook_already (s : DbState) (e : StripeEvent) (now : Int)
    (h : s.webhook_events.any (fun w => w.stripe_event_id == e.id) = true) :
    handleStripeWebhook true true e now s =
      (s, { status := 200, body := .text "Event already processed" }) := by
  unfold handleStripeWebhook
  simp [h]

theorem handleStripeWebhook_records (s : DbState) (e : StripeEvent) (now : Int) :
    ((handleStripeWebhook true true e now s).1.webhook_events.any
      (fun w => w.stripe_event_id == e.id)) = true := by
  by_cases h : s.webhook_events.any (fun w => w.stripe_event_id == e.id) = true
  · rw [handleStripeWebhook_already s e now h]
    exact h
  · unfold handleStripeWebhook
    simp only [Bool.not_true, Bool.false_eq_true, if_false, h, if_true]
    set s1 : DbState :=
      { s with webhook_events := s.webhook_events ++
          [{ stripe_event_id := e.id, event_type := e.type,
             processed := false, processed_at := none, error := none }] } with hs1
    have hmem1 : s1.webhook_events.any (fun w => w.stripe_event_id == e.id) = true := by
      rw [hs1]
      simp
    cases hdisp : dispatchStripeEvent s1 e now with
    | ok s2 =>
      have hev : s2.webhook_events = s1.webhook_events :=
        dispatchStripeEvent_events_ok s1 e now s2 hdisp
      simp only []
      rw [List.any_eq_true] at hmem1 ⊢
      rcases hmem1 with ⟨w, hw, hwid⟩
      refine ⟨if w.stripe_event_id == e.id then
        { w with processed := true, processed_at := some now } else w, ?_, ?_⟩
      · rw [hev]
        exact List.mem_map.2 ⟨w, hw, rfl⟩
      · rw [hwid]
        simpa using hwid
    | error p =>
      obtain ⟨s2, msg⟩ := p
      have hev : s2.webhook_events = s1.webhook_events :=
        dispatchStripeEvent_events_error s1 e now s2 msg hdisp
      simp only []
      rw [List.any_eq_true] at hmem1 ⊢
      rcases hmem1 with ⟨w, hw, hwid⟩
      refine ⟨if w.stripe_event_id == e.id then
        { w with error := some msg, processed_at := some now } else w, ?_, ?_⟩
      · rw [hev]
        exact List.mem_map.2 ⟨w, hw, rfl⟩
      · rw [hwid]
        simpa using hwid

/-- C2: if a `webhook_events` row with the same `stripe_event_id` already
exists, `handleStripeWebhook` returns 200 and performs no subscription or
user update (the whole state is unchanged); consequently delivering the
same event twice leaves the same database as delivering it once — in
particular exactly one subscription upsert happens. -/
theorem C2_webhook_dedup (s : DbState) (e : StripeEvent) (now now2 : Int)
    (h : s.webhook_events.any (fun w => w.stripe_event_id == e.id) = true) :
    handleStripeWebhook true true e now s =
      (s, { status := 200, body := .text "Event already processed" }) ∧
    (∀ s0 : DbState,
      (handleStripeWebhook true true e now2
        (handleStripeWebhook true true e now s0).1).1 =
      (handleStripeWebhook true true e now s0).1) := by
  refine ⟨handleStripeWebhook_already s e now h, ?_⟩
  intro s0
  rw [handleStripeWebhook_already _ e now2 (handleStripeWebhook_records s0 e now)]

/-- C2 (witness): the deduplication theorem at a state whose log already
holds the event id `evt_1`. -/
theorem C2_witness :
    handleStripeWebhook true true demoEvent 7 demoState =
      (demoState, { status := 200, body := .text "Event already processed" }) ∧
    (∀ s0 : DbState,
      (handleStripeWebhook true true demoEvent 9
        (handleStripeWebhook true true demoEvent 7 s0).1).1 =
      (handleStripeWebhook true true demoEvent 7 s0).1) :=
  C2_webhook_dedup demoState demoEvent 7 9 (by decide)

/-- C6 (witness): the preservation theorem applied at a one-row table. -/
theorem C6_witness :
    statsKeyUnique
      (dbUpsertStats [mkStatsRow 1 1 2 2 "verified"] 1 2 5 0 "pending") ∧
    (∀ t', dbInsertStats [mkStatsRow 1 1 2 2 "verified"] 1 2 5 0 "pending" = .ok t' →
      statsKeyUnique t') :=
  C6_stats_key_unique [mkStatsRow 1 1 2 2 "verified"] 1 2 5 0 "pending" (by decide)

/-- C3 (counterexample): at the instant where `premium_expiry` equals the
current time, `checkPremiumStatus` answers `true` (its test is
`expiry < now`), while the claimed boolean `is_premium AND (no expiry OR
expiry > now)` — which is exactly what the inline `updateSocialLinks` gate
computes — is `false`: the code paths do not all compute the claimed
boolean. -/
theorem C3_counterexample :
    checkPremiumStatus demoUserExpiring 0 = true ∧
    updateSocialLinksGate demoUserExpiring 0 = false ∧
    specPremiumGate demoUserExpiring.is_premium demoUserExpiring.premium_expiry 0
      = false := by
  decide

/-- C3 (amended): `checkPremiumStatus` and `isPremiumUser` compute the same
boolean, namely `is_premium AND (no expiry OR expiry ≥ now)`; the inline
gate of `updateSocialLinks` and the `getPremiumStatus` gate compute the
claimed strict boolean `is_premium AND (no expiry OR expiry > now)`; all
of them agree whenever `premium_expiry` is absent or differs from the
current instant. -/
theorem C3_premium_gates (u : UserRow) (now : Int) :
    checkPremiumStatus u now = isPremiumUser (some u) now ∧
    checkPremiumStatus u now =
      (u.is_premium &&
        (match u.premium_expiry with
         | none => true
         | some e => decide (now ≤ e))) ∧
    updateSocialLinksGate u now = specPremiumGate u.is_premium u.premium_expiry now ∧
    getPremiumStatusGate u now = specPremiumGate u.is_premium u.premium_expiry now ∧
    (∀ e, u.premium_expiry = some e → e ≠ now →
      checkPremiumStatus u now = specPremiumGate u.is_premium u.premium_expiry now) ∧
    (u.premium_expiry = none →
      checkPremiumStatus u now = specPremiumGate u.is_premium u.premium_expiry now) := by
  refine ⟨rfl, ?_, rfl, rfl, ?_, ?_⟩
  · unfold checkPremiumStatus
    cases hp : u.is_premium
    · simp
    · cases hx : u.premium_expiry
      · simp
      · next e =>
        by_cases hlt : e < now
        · have : ¬ now ≤ e := by omega
          simp [hlt, this]
        · have : now ≤ e := by omega
          simp [hlt, this]
  · intro e he hne
    unfold checkPremiumStatus specPremiumGate
    rw [he]
    cases hp : u.is_premium
    · simp
    · by_cases hlt : e < now
      · have : ¬ now < e := by omega
        simp [hlt, this]
      · have : now < e := by omega
        simp [hlt, this]
  · intro hnone
    unfold checkPremiumStatus specPremiumGate
    rw [hnone]
    cases hp : u.is_premium <;> simp

/-- C3 (witness): away from the boundary instant the gates agree — the
amended theorem applied at the user expiring at 5, read at time 3. -/
theorem C3_witness :
    checkPremiumStatus demoUserFuture 3 =
      specPremiumGate demoUserFuture.is_premium demoUserFuture.premium_expiry 3 :=
  (C3_premium_gates demoUserFuture 3).2.2.2.2.1 5 rfl (by decide)

/-- C7 (counterexample): the claim counts `hasActivePremium` among the
premium-feature access checks, but it consults only the cached
`subscriptionStatus`: for a customer whose period (mirrored into
`premium_expiry = some 0`) has passed at time 1, it still answers `true`,
not `false`. -/
theorem C7_counterexample :
    demoUserExpiring.premium_expiry = some 0 ∧
    demoCustomer.currentPeriodEnd = some 0 ∧ (0 : Int) < 1 ∧
    hasActivePremium (some demoCustomer) = true := by
  decide

/-- C7 (amended): once the current time is strictly past a set
`premium_expiry`, every database-reading premium check —
`checkPremiumStatus`, `isPremiumUser`, the `updateSocialLinks` gate and
the `getPremiumStatus` gate — returns `false` purely by the read-time
comparison, with no write; the client-side `hasActivePremium`, however, is
a function of the cached `subscriptionStatus` alone and does not consult
the clock, so it alone is not forced to `false` by the passing of the
expiry. -/
theorem C7_expiry_read_only (u : UserRow) (now e : Int)
    (he : u.premium_expiry = some e) (hlt : e < now) :
    checkPremiumStatus u now = false ∧
    isPremiumUser (some u) now = false ∧
    updateSocialLinksGate u now = false ∧
    getPremiumStatusGate u now = false ∧
    (∀ c : StripeCustomer,
      hasActivePremium (some c) = (c.subscriptionStatus == "active")) := by
  have hnlt : ¬ now < e := by omega
  refine ⟨?_, ?_, ?_, ?_, fun c => rfl⟩
  · unfold checkPremiumStatus
    rw [he]
    cases u.is_premium <;> simp [hlt]
  · show checkPremiumStatus u now = false
    unfold checkPremiumStatus
    rw [he]
    cases u.is_premium <;> simp [hlt]
  · unfold updateSocialLinksGate
    rw [he]
    simp [hnlt]
  · unfold getPremiumStatusGate
    rw [he]
    simp [hnlt]

/-- C7 (witness): the amended theorem at the user whose expiry 0 has
passed at time 1. -/
theorem C7_witness :
    checkPremiumStatus demoUserExpiring 1 = false ∧
    isPremiumUser (some demoUserExpiring) 1 = false ∧
    updateSocialLinksGate demoUserExpiring 1 = false ∧
    getPremiumStatusGate demoUserExpiring 1 = false ∧
    (∀ c : StripeCustomer,
      hasActivePremium (some c) = (c.subscriptionStatus == "active")) :=
  C7_expiry_read_only demoUserExpiring 1 0 rfl (by decide)

/-- C5 (counterexample): starting from a state satisfying the claimed
invariant (the lapsed user is not premium), a succeeded-payment webhook
for that user's customer makes `handlePaymentSucceeded` set
`is_premium := true` without refreshing `premium_expiry` (already passed
at time 100) and without any active subscription row — the claimed
invariant does not survive the operation. -/
theorem C5_counterexample :
    strongPremiumInv 100 demoStateLapsed = true ∧
    strongPremiumInv 100 (handlePaymentSucceeded demoStateLapsed demoInvoice 100).1
      = false := by
  decide

theorem dbUpdateUsers_checkOk (users : List UserRow) (sel : UserRow → Bool)
    (patch : UserRow → UserRow) (h : ∀ u ∈ users, userCheckOk u = true) :
    ∀ l, dbUpdateUsers users sel patch = .ok l → ∀ u ∈ l, userCheckOk u = true := by
  intro l hl u hu
  unfold dbUpdateUsers at hl
  split at hl
  · next hall =>
    cases hl
    rcases List.mem_map.1 hu with ⟨x, hx, rfl⟩
    by_cases hs : sel x = true
    · have hxf : x ∈ users.filter sel := List.mem_filter.2 ⟨hx, hs⟩
      have := List.all_eq_true.1 hall _ hxf
      simpa [hs] using this
    · rw [if_neg hs]
      exact h x hx
  · exact Except.noConfusion hl

theorem dbUpdateUsersSilent_checkOk (users : List UserRow) (sel : UserRow → Bool)
    (patch : UserRow → UserRow) (h : ∀ u ∈ users, userCheckOk u = true) :
    ∀ u ∈ dbUpdateUsersSilent users sel patch, userCheckOk u = true := by
  unfold dbUpdateUsersSilent
  split
  · next l heq => exact dbUpdateUsers_checkOk users sel patch h l heq
  · next m heq => exact h

/-- C5 (amended): what every reachable state does satisfy is the database
constraint `check_premium_expiry`: a premium user has a `premium_expiry`
(possibly already passed) or a `stripe_subscription_id` (possibly of an
inactive subscription). Each operation that writes the premium flag —
`handlePaymentSucceeded`, `handleSubscriptionUpdate`,
`handleSubscriptionDeleted` and `updatePremiumStatus` — preserves this
weaker invariant; the spec's strong invariant (non-expired expiry or
active subscription) is not preserved, as the counterexample shows. -/
theorem C5_check_constraint_preserved (s : DbState) (inv : StripeInvoice)
    (sub : StripeSubscription) (userId : ℕ) (isPrem : Bool) (ex : Option Int)
    (now : Int) (h : ∀ u ∈ s.users, userCheckOk u = true) :
    (∀ u ∈ (handlePaymentSucceeded s inv now).1.users, userCheckOk u = true) ∧
    (∀ u ∈ (handleSubscriptionUpdate s sub now).1.users, userCheckOk u = true) ∧
    (∀ u ∈ (handleSubscriptionDeleted s sub now).1.users, userCheckOk u = true) ∧
    (∀ u ∈ (updatePremiumStatus s userId isPrem ex).1.users, userCheckOk u = true) := by
  refine ⟨?_, ?_, ?_, ?_⟩
  · unfold handlePaymentSucceeded
    obtain ⟨cust, subq⟩ := inv
    cases subq
    · exact h
    · cases s.users.find? (fun u => u.stripe_customer_id == some cust)
      · exact h
      · exact dbUpdateUsersSilent_checkOk _ _ _ h
  · unfold handleSubscriptionUpdate
    cases s.users.find? (fun u => u.stripe_customer_id == some sub.customer)
    · exact h
    · exact dbUpdateUsersSilent_checkOk _ _ _ h
  · unfold handleSubscriptionDeleted
    cases s.users.find? (fun u => u.stripe_customer_id == some sub.customer)
    · exact h
    · exact dbUpdateUsersSilent_checkOk _ _ _ h
  · unfold updatePremiumStatus
    cases hupd : dbUpdateUsers s.users (fun u => u.id == userId)
        (fun u => { u with
                    is_premium := isPrem
                    premium_expiry := ex })
    · exact h
    · next l => exact dbUpdateUsers_checkOk _ _ _ h l hupd

/-- C5 (witness): the weak-invariant preservation at the lapsed-user
fixture. -/
theorem C5_witness :
    (∀ u ∈ (handlePaymentSucceeded demoStateLapsed demoInvoice 100).1.users,
      userCheckOk u = true) ∧
    (∀ u ∈ (handleSubscriptionUpdate demoStateLapsed demoSubStripe 100).1.users,
      userCheckOk u = true) ∧
    (∀ u ∈ (handleSubscriptionDeleted demoStateLapsed demoSubStripe 100).1.users,
      userCheckOk u = true) ∧
    (∀ u ∈ (updatePremiumStatus demoStateLapsed 1 true (some 200)).1.users,
      userCheckOk u = true) :=
  C5_check_constraint_preserved demoStateLapsed demoInvoice demoSubStripe 1 true
    (some 200) 100 (by decide)

theorem tupleGe_total : ∀ a b : ℤ × ℕ × ℕ, tupleGe a b ∨ tupleGe b a := by
  rintro ⟨a1, a2, a3⟩ ⟨b1, b2, b3⟩
  unfold tupleGe
  dsimp only
  omega

theorem tupleGe_trans :
    ∀ a b c : ℤ × ℕ × ℕ, tupleGe a b → tupleGe b c → tupleGe a c := by
  rintro ⟨a1, a2, a3⟩ ⟨b1, b2, b3⟩ ⟨c1, c2, c3⟩ h1 h2
  unfold tupleGe at h1 h2 ⊢
  dsimp only at h1 h2 ⊢
  omega

theorem tupleGe_antisymm : ∀ a b : ℤ × ℕ × ℕ, tupleGe a b → tupleGe b a → a = b := by
  rintro ⟨a1, a2, a3⟩ ⟨b1, b2, b3⟩ h1 h2
  unfold tupleGe at h1 h2
  dsimp only at h1 h2
  simp only [Prod.mk.injEq]
  omega

instance : IsAntisymm (ℤ × ℕ × ℕ) tupleGe := ⟨tupleGe_antisymm⟩

theorem leaderboardRanks_fst (out : List StatsRow) :
    (leaderboardRanks out).map Prod.fst = List.range' 1 out.length := by
  unfold leaderboardRanks
  rw [List.map_map]
  rw [show (Prod.fst ∘ fun p : ℕ × StatsRow => (p.1 + 1, p.2)) =
        ((fun n : ℕ => 1 + n) ∘ Prod.fst) from funext fun p => Nat.add_comm p.1 1]
  rw [← List.map_map, List.enum_map_fst, List.range'_eq_map_range]

/-- C4 (counterexample): two verified rows with identical ordering tuples
for two different users admit two distinct valid view outputs — both
orders are tuple-sorted permutations of the selected rows — so the rank
that `ROW_NUMBER()` gives each tied row is not determined by the data: the
claimed deterministic tie-breaking by the tuple fails. -/
theorem C4_counterexample :
    ValidLeaderboardOrder demoUsersLB demoStatsLB [demoRowA, demoRowB] ∧
    ValidLeaderboardOrder demoUsersLB demoStatsLB [demoRowB, demoRowA] ∧
    ([demoRowA, demoRowB] : List StatsRow) ≠ [demoRowB, demoRowA] ∧
    lbTuple demoRowA = lbTuple demoRowB := by
  decide

/-- C4 (amended): the leaderboard assigns rank n to the row in the n-th
position of a sequence of the selected rows sorted descending by
(win_rate, wins, games_played); this tuple comparison is total and
transitive, and any two valid outputs over the same data are permutations
of each other with identical tuple sequences — so the sequence of ranked
tuples is deterministic, but rows whose tuples are equal may receive their
(distinct, consecutive) ranks in either order. -/
theorem C4_leaderboard_order (users : List UserRow) (stats : List StatsRow)
    (out1 out2 : List StatsRow)
    (h1 : ValidLeaderboardOrder users stats out1)
    (h2 : ValidLeaderboardOrder users stats out2) :
    out1.Perm out2 ∧
    out1.map lbTuple = out2.map lbTuple ∧
    (leaderboardRanks out1).map Prod.fst = List.range' 1 out1.length ∧
    (∀ a b : ℤ × ℕ × ℕ, tupleGe a b ∨ tupleGe b a) ∧
    (∀ a b c : ℤ × ℕ × ℕ, tupleGe a b → tupleGe b c → tupleGe a c) := by
  obtain ⟨hp1, hs1⟩ := h1
  obtain ⟨hp2, hs2⟩ := h2
  have hperm : out1.Perm out2 := hp1.trans hp2.symm
  refine ⟨hperm, ?_, leaderboardRanks_fst out1, tupleGe_total, tupleGe_trans⟩
  have hs1' : (out1.map lbTuple).Sorted tupleGe := List.pairwise_map.2 hs1
  have hs2' : (out2.map lbTuple).Sorted tupleGe := List.pairwise_map.2 hs2
  exact List.eq_of_perm_of_sorted (hperm.map lbTuple) hs1' hs2'

/-- C4 (witness): the amended theorem at the two-row fixture. -/
theorem C4_witness :
    ([demoRowA, demoRowB] : List StatsRow).Perm [demoRowB, demoRowA] ∧
    ([demoRowA, demoRowB] : List StatsRow).map lbTuple =
      ([demoRowB, demoRowA] : List StatsRow).map lbTuple ∧
    (leaderboardRanks [demoRowA, demoRowB]).map Prod.fst =
      List.range' 1 ([demoRowA, demoRowB] : List StatsRow).length ∧
    (∀ a b : ℤ × ℕ × ℕ, tupleGe a b ∨ tupleGe b a) ∧
    (∀ a b c : ℤ × ℕ × ℕ, tupleGe a b → tupleGe b c → tupleGe a c) :=
  C4_leaderboard_order demoUsersLB demoStatsLB [demoRowA, demoRowB]
    [demoRowB, demoRowA] (by decide) (by decide)

/-- C10: every row of the `leaderboard_overall` view comes from a stats
row that is verified, has games_played > 0 and joins to an existing user;
every row of `leaderboard_by_platform` additionally joins to an active
platform — pending or disputed stats, or stats with zero games, never
appear. -/
theorem C10_leaderboard_filters (users : List UserRow)
    (platforms : List PlatformRow) (stats : List StatsRow) :
    (∀ r ∈ leaderboardOverallRows users stats,
      r.verification_status = "verified" ∧ 0 < r.games_played ∧
      ∃ u ∈ users, u.id = r.user_id) ∧
    (∀ r ∈ leaderboardByPlatformRows users platforms stats,
      r.verification_status = "verified" ∧ 0 < r.games_played ∧
      (∃ u ∈ users, u.id = r.user_id) ∧
      ∃ p ∈ platforms, p.id = r.platform_id ∧ p.is_active = true) := by
  constructor
  · intro r hr
    unfold leaderboardOverallRows at hr
    rcases List.mem_filter.1 hr with ⟨_, hp⟩
    simp only [Bool.and_eq_true, beq_iff_eq, decide_eq_true_eq,
      List.any_eq_true] at hp
    obtain ⟨⟨hv, hg⟩, u, hu, hid⟩ := hp
    exact ⟨hv, hg, u, hu, hid⟩
  · intro r hr
    unfold leaderboardByPlatformRows at hr
    rcases List.mem_filter.1 hr with ⟨_, hp⟩
    simp only [Bool.and_eq_true, beq_iff_eq, decide_eq_true_eq,
      List.any_eq_true] at hp
    obtain ⟨⟨⟨hv, hg⟩, u, hu, hid⟩, p, hpmem, hpid, hact⟩ := hp
    exact ⟨hv, hg, ⟨u, hu, hid⟩, p, hpmem, hpid, hact⟩

/-- C10 (witness): the filter theorem applied to a concrete row of the
fixture view. -/
theorem C10_witness :
    demoRowA.verification_status = "verified" ∧ 0 < demoRowA.games_played ∧
    ∃ u ∈ demoUsersLB, u.id = demoRowA.user_id :=
  (C10_leaderboard_filters demoUsersLB demoPlatformsLB demoStatsLB).1
    demoRowA (by decide)

/-- C8 (counterexample): the webhook endpoint's missing-signature failure
is answered with status 400 and the plain-text body "Missing signature or
webhook secret" — an HTTP error status, but not a JSON error body, so the
claim that every error yields a JSON error body fails. -/
theorem C8_counterexample :
    handleStripeWebhook false true demoEvent 0 demoState =
      (demoState,
       { status := 400, body := .text "Missing signature or webhook secret" }) ∧
    isJsonErrorBody (RespBody.text "Missing signature or webhook secret")
      = false := by
  exact ⟨rfl, rfl⟩

/-- C8 (amended): every error is caught at the function boundary and
answered with an HTTP error status, and nothing is retried or
compensated: a thrown error becomes 500 with a JSON error body at the
serve boundary, with the state left exactly as at the failure; the
validation and not-found error paths of the routed handlers — the 404
"User not found" of the subscription handlers, the 403 premium gate and
500s of `updateSocialLinks`, `updatePremiumStatus` and
`createOrUpdateUser`, and the 400 missing-parameter answer of
`getWebhookEvent` — all carry a status of at least 400 and a JSON error
body; only the webhook endpoint's own failure paths and the routers' 404
default are plain text, and a verified webhook delivery is answered 200
or 500 and nothing else. -/
theorem C8_error_handling (s : DbState) (msg : String) (e : StripeEvent)
    (now : Int) (sub : StripeSubscription) (inv : StripeInvoice)
    (uid : ℕ) (links : List (String × String)) (isPrem : Bool)
    (ex : Option Int) (inp : CreateOrUpdateInput) (nid : ℕ) :
    serveBoundary (s, .error msg) =
      (s, { status := 500, body := .jsonError msg }) ∧
    isJsonErrorBody (RespBody.jsonError msg) = true ∧
    routeNotFound = { status := 404, body := .text "Not Found" } ∧
    handleStripeWebhook false true e now s =
      (s, { status := 400, body := .text "Missing signature or webhook secret" }) ∧
    handleStripeWebhook true false e now s =
      (s, { status := 400, body := .text "Invalid signature" }) ∧
    ((handleStripeWebhook true true e now s).2 =
        { status := 200, body := .text "Event already processed" } ∨
     (handleStripeWebhook true true e now s).2 =
        { status := 200, body := .text "Webhook processed successfully" } ∨
     (handleStripeWebhook true true e now s).2 =
        { status := 500, body := .text "Error processing webhook" }) ∧
    getWebhookEvent s none =
      (s, { status := 400, body := .jsonError "eventId parameter required" }) ∧
    ((handleSubscriptionUpdate s sub now).2.status = 200 ∨
     (400 ≤ (handleSubscriptionUpdate s sub now).2.status ∧
      isJsonErrorBody (handleSubscriptionUpdate s sub now).2.body = true)) ∧
    ((handleSubscriptionDeleted s sub now).2.status = 200 ∨
     (400 ≤ (handleSubscriptionDeleted s sub now).2.status ∧
      isJsonErrorBody (handleSubscriptionDeleted s sub now).2.body = true)) ∧
    ((handlePaymentSucceeded s inv now).2.status = 200 ∨
     (400 ≤ (handlePaymentSucceeded s inv now).2.status ∧
      isJsonErrorBody (handlePaymentSucceeded s inv now).2.body = true)) ∧
    ((handlePaymentFailed s inv).2.status = 200 ∨
     (400 ≤ (handlePaymentFailed s inv).2.status ∧
      isJsonErrorBody (handlePaymentFailed s inv).2.body = true)) ∧
    ((updateSocialLinks s uid links now).2.status = 200 ∨
     (400 ≤ (updateSocialLinks s uid links now).2.status ∧
      isJsonErrorBody (updateSocialLinks s uid links now).2.body = true)) ∧
    ((updatePremiumStatus s uid isPrem ex).2.status = 200 ∨
     (400 ≤ (updatePremiumStatus s uid isPrem ex).2.status ∧
      isJsonErrorBody (updatePremiumStatus s uid isPrem ex).2.body = true)) ∧
    ((createOrUpdateUser s inp now nid).2.status = 200 ∨
     (400 ≤ (createOrUpdateUser s inp now nid).2.status ∧
      isJsonErrorBody (createOrUpdateUser s inp now nid).2.body = true)) := by
  refine ⟨rfl, rfl, rfl, rfl, rfl, ?_, rfl, ?_, ?_, ?_, ?_, ?_, ?_, ?_⟩
  · by_cases h : s.webhook_events.any (fun w => w.stripe_event_id == e.id) = true
    · left
      rw [handleStripeWebhook_already s e now h]
    · unfold handleStripeWebhook
      simp only [Bool.not_true, Bool.false_eq_true, if_false, h, if_true]
      cases hdisp : dispatchStripeEvent
          { s with webhook_events := s.webhook_events ++
              [{ stripe_event_id := e.id, event_type := e.type,
                 processed := false, processed_at := none, error := none }] } e now with
      | ok s2 =>
        right; left; rfl
      | error p =>
        right; right
        obtain ⟨s2, m⟩ := p
        rfl
  · unfold handleSubscriptionUpdate
    split
    · right; exact ⟨by norm_num, rfl⟩
    · left; rfl
  · unfold handleSubscriptionDeleted
    split
    · right; exact ⟨by norm_num, rfl⟩
    · left; rfl
  · unfold handlePaymentSucceeded
    split
    · left; rfl
    · split
      · right; exact ⟨by norm_num, rfl⟩
      · left; rfl
  · unfold handlePaymentFailed
    split
    · left; rfl
    · split
      · right; exact ⟨by norm_num, rfl⟩
      · left; rfl
  · unfold updateSocialLinks
    split
    · right; exact ⟨by norm_num, rfl⟩
    · split
      · right; exact ⟨by norm_num, rfl⟩
      · split
        · left; rfl
        · right; exact ⟨by norm_num, rfl⟩
  · unfold updatePremiumStatus
    split
    · left; rfl
    · right; exact ⟨by norm_num, rfl⟩
  · unfold createOrUpdateUser
    split
    · split
      · left; rfl
      · right; exact ⟨by norm_num, rfl⟩
    · left; rfl

/-- C9: when `createOrUpdateUser` finds a row for the telegram id, it
updates exactly `username`, `selected_platform`, `platform_username` and
`last_active`: no row is added or removed, rows with another id are
untouched, and every row keeps its id, telegram id, premium fields
(`is_premium`, `premium_expiry`, `stripe_customer_id`,
`stripe_subscription_id`), `verified_badge`, `social_links` and
`created_at`; when no row exists it appends exactly one new user with
`is_premium = false` and `verified_badge = false`. -/
theorem C9_createOrUpdateUser (s : DbState) (inp : CreateOrUpdateInput)
    (now : Int) (nid : ℕ) (hok : ∀ v ∈ s.users, userCheckOk v = true) :
    (∀ u, s.users.find? (fun v => v.telegram_id == inp.telegramId) = some u →
      (createOrUpdateUser s inp now nid).1.users =
        s.users.map (fun v => if v.id == u.id then profilePatch inp now v else v) ∧
      (createOrUpdateUser s inp now nid).1.users.length = s.users.length ∧
      (∀ w ∈ s.users, (w.id == u.id) = false →
        w ∈ (createOrUpdateUser s inp now nid).1.users) ∧
      (∀ w ∈ s.users, ∃ v ∈ (createOrUpdateUser s inp now nid).1.users,
        v.id = w.id ∧ v.telegram_id = w.telegram_id ∧
        v.is_premium = w.is_premium ∧ v.premium_expiry = w.premium_expiry ∧
        v.stripe_customer_id = w.stripe_customer_id ∧
        v.stripe_subscription_id = w.stripe_subscription_id ∧
        v.verified_badge = w.verified_badge ∧
        v.social_links = w.social_links ∧ v.created_at = w.created_at)) ∧
    (s.users.find? (fun v => v.telegram_id == inp.telegramId) = none →
      (createOrUpdateUser s inp now nid).1.users =
        s.users ++ [newUserRow nid inp now] ∧
      (newUserRow nid inp now).is_premium = false ∧
      (newUserRow nid inp now).verified_badge = false) := by
  constructor
  · intro u hfind
    have hall : (s.users.filter (fun v => v.id == u.id)).all
        (fun v => userCheckOk (profilePatch inp now v)) = true := by
      rw [List.all_eq_true]
      intro x hx
      show userCheckOk (profilePatch inp now x) = true
      have hsame : userCheckOk (profilePatch inp now x) = userCheckOk x := rfl
      rw [hsame]
      exact hok x (List.mem_filter.1 hx).1
    have hupd : dbUpdateUsers s.users (fun v => v.id == u.id) (profilePatch inp now)
        = .ok (s.users.map
            (fun v => if v.id == u.id then profilePatch inp now v else v)) := by
      unfold dbUpdateUsers
      rw [if_pos hall]
    have husers : (createOrUpdateUser s inp now nid).1.users
        = s.users.map (fun v => if v.id == u.id then profilePatch inp now v else v) := by
      unfold createOrUpdateUser
      rw [hfind]
      dsimp only
      rw [hupd]
    refine ⟨husers, ?_, ?_, ?_⟩
    · rw [husers, List.length_map]
    · intro w hw hne
      rw [husers]
      refine List.mem_map.2 ⟨w, hw, ?_⟩
      rw [if_neg (by simp [hne])]
    · intro w hw
      rw [husers]
      by_cases hid : (w.id == u.id) = true
      · exact ⟨profilePatch inp now w,
          List.mem_map.2 ⟨w, hw, by rw [if_pos hid]⟩,
          rfl, rfl, rfl, rfl, rfl, rfl, rfl, rfl, rfl⟩
      · exact ⟨w, List.mem_map.2 ⟨w, hw, by rw [if_neg hid]⟩,
          rfl, rfl, rfl, rfl, rfl, rfl, rfl, rfl, rfl⟩
  · intro hfind
    have husers : (createOrUpdateUser s inp now nid).1.users
        = s.users ++ [newUserRow nid inp now] := by
      unfold createOrUpdateUser
      rw [hfind]
    exact ⟨husers, rfl, rfl⟩

/-- C9 (witness): the frame theorem at the one-user fixture (telegram id
already present). -/
theorem C9_witness :
    (createOrUpdateUser demoStateLapsed demoInput 50 99).1.users =
      demoStateLapsed.users.map
        (fun v => if v.id == demoUserLapsed.id then profilePatch demoInput 50 v else v) ∧
    (createOrUpdateUser demoStateLapsed demoInput 50 99).1.users.length =
      demoStateLapsed.users.length ∧
    (∀ w ∈ demoStateLapsed.users, (w.id == demoUserLapsed.id) = false →
      w ∈ (createOrUpdateUser demoStateLapsed demoInput 50 99).1.users) ∧
    (∀ w ∈ demoStateLapsed.users,
      ∃ v ∈ (createOrUpdateUser demoStateLapsed demoInput 50 99).1.users,
        v.id = w.id ∧ v.telegram_id = w.telegram_id ∧
        v.is_premium = w.is_premium ∧ v.premium_expiry = w.premium_expiry ∧
        v.stripe_customer_id = w.stripe_customer_id ∧
        v.stripe_subscription_id = w.stripe_subscription_id ∧
        v.verified_badge = w.verified_badge ∧
        v.social_links = w.social_links ∧ v.created_at = w.created_at) :=
  (C9_createOrUpdateUser demoStateLapsed demoInput 50 99 (by decide)).1
    demoUserLapsed (by decide)

end VisionBones
